import Mathlib

/-!
Shallow embedding of the agent execution core of the Multiple-Tool-Chatbot
repository (LangGraph-based chatbot manager, tool registry, MCP wrappers and
local RAG tool), together with theorems settling the frozen claims about it.

Conventions of the embedding:
* LangChain message objects become the `Msg` structure with a `Role` tag
  (`HumanMessage` is `Role.human`, `AIMessage` is `Role.ai`, `ToolMessage`
  is `Role.tool`, `SystemMessage` is `Role.system`).
* A Python dict of strings becomes an association list `List (String × String)`.
* A fallible Python call (one that may raise) becomes a value of
  `Except String α`: `Except.error e` models a raised exception carrying the
  text `e`, `Except.ok v` a normal return.  A `try/except` block becomes a
  `match` on that value.
* Tool invocation results are taken after Python's `str(...)` normalisation,
  i.e. as `String`s, except for the RAG tool whose raw dict result is modelled
  by the `PyVal` type.
-/

namespace Chatbot

/-- Role tag distinguishing the LangChain message classes. -/
inductive Role where
  | human
  | ai
  | tool
  | system
  deriving DecidableEq, Repr

/-- One entry of an `AIMessage.tool_calls` list: in LangChain a dict with
keys `id`, `name` and `args` (`src/backend/manager.py` reads exactly these
three fields of each tool call). -/
structure ToolCallRequest where
  id : String
  name : String
  args : List (String × String)
  deriving DecidableEq, Repr

/-- A conversation message.  `tool_call_id` and `name` are only meaningful
for `Role.tool` messages (they default to `""` elsewhere), matching the
`ToolMessage(content=..., tool_call_id=..., name=...)` constructor used in
`_call_tool`. -/
structure Msg where
  role : Role
  content : String
  tool_calls : List ToolCallRequest := []
  tool_call_id : String := ""
  name : String := ""
  deriving DecidableEq, Repr

/-- The `ToolMessage(content=str(output), tool_call_id=tc_id, name=tc_name)`
constructed at the end of each iteration of `_call_tool`'s loop. -/
def toolMsg (content tool_call_id tool_name : String) : Msg :=
  { role := Role.tool, content := content,
    tool_call_id := tool_call_id, name := tool_name }

/-- A Python value as produced by the local RAG tool: a string, a list or a
string-keyed dict (`src/tools/local_tools.py` builds exactly these shapes). -/
inductive PyVal where
  | str (s : String)
  | list (items : List PyVal)
  | dict (entries : List (String × PyVal))
  deriving Repr

/-- A retrieved document: `page_content` plus its metadata dict
(`langchain_core.documents.Document`, consumed in `local_tools.py`). -/
structure Document where
  page_content : String
  metadata : List (String × String)

/-- The opaque retriever capability: `retriever.invoke(query)` /
`retriever.ainvoke(query)` returns an ordered list of documents. -/
def Retriever := String → List Document

/-- `d.get(k)` on a Python string dict. -/
def dictGet (d : List (String × String)) (k : String) : Option String :=
  (d.find? (fun kv => kv.1 == k)).map (fun kv => kv.2)

/-- A registered tool, as `_call_tool` in `src/backend/manager.py` uses it:
its `name`, its `ainvoke(args)` entry point, and (for the RAG special path)
the direct `_arun(query, retriever=...)` call and the
`ainvoke(args, retriever=...)` fallback.  Each invocation either returns the
`str(...)` of its output (`Except.ok`) or raises (`Except.error`). -/
structure Tool where
  name : String
  ainvoke : List (String × String) → Except String String
  arunRag : Option String → Retriever → Except String String
  ainvokeRag : List (String × String) → Retriever → Except String String

/-- `str({"error": "No document indexed for this chat. Upload a PDF first."})`:
the content of the tool message produced when the RAG tool is requested on a
thread with no retriever (`_call_tool`, manager.py line 210). -/
def noDocumentContent : String :=
  "\x7b'error': 'No document indexed for this chat. Upload a PDF first.'\x7d"

/-- One iteration of the dispatch loop of `_call_tool`
(`src/backend/manager.py` lines 193-229) for a single tool call request:
resolve the tool by exact name over `self.tools` (`next(...)`), produce the
not-found message if absent; on the reserved name `rag_tool` look up the
thread's retriever (no-document message if absent, otherwise the direct
`_arun` call with the `ainvoke` fallback on exception); otherwise plain
`ainvoke`.  An uncaught exception is `Except.error`. -/
def dispatchOne (tools : List Tool) (retrievers : String → Option Retriever)
    (thread_id : String) (tc : ToolCallRequest) : Except String Msg :=
  match tools.find? (fun t => t.name == tc.name) with
  | none => Except.ok (toolMsg ("Error: Tool '" ++ tc.name ++ "' not found.") tc.id tc.name)
  | some tool =>
    if tc.name = "rag_tool" then
      match retrievers thread_id with
      | none => Except.ok (toolMsg noDocumentContent tc.id tc.name)
      | some retriever =>
        match tool.arunRag (dictGet tc.args "query") retriever with
        | Except.ok output => Except.ok (toolMsg output tc.id tc.name)
        | Except.error _ =>
          match tool.ainvokeRag tc.args retriever with
          | Except.ok output => Except.ok (toolMsg output tc.id tc.name)
          | Except.error e => Except.error e
    else
      match tool.ainvoke tc.args with
      | Except.ok output => Except.ok (toolMsg output tc.id tc.name)
      | Except.error e => Except.error e

/-- The `for tool_call in tool_calls` loop of `_call_tool`: dispatch each
request in order, collecting the produced tool messages; an exception raised
by an iteration propagates (aborting the whole node). -/
def callToolGo (tools : List Tool) (retrievers : String → Option Retriever)
    (thread_id : String) : List ToolCallRequest → Except String (List Msg)
  | [] => Except.ok []
  | tc :: rest =>
    match dispatchOne tools retrievers thread_id tc with
    | Except.error e => Except.error e
    | Except.ok msg =>
      match callToolGo tools retrievers thread_id rest with
      | Except.error e => Except.error e
      | Except.ok msgs => Except.ok (msg :: msgs)

/-- `_call_tool` (manager.py lines 179-231): the tool node.  The defensive
shape-normalisation of lines 186-190 nets out to reading the last message's
`tool_calls` list (possibly empty). -/
def callTool (tools : List Tool) (retrievers : String → Option Retriever)
    (thread_id : String) (last_msg : Msg) : Except String (List Msg) :=
  callToolGo tools retrievers thread_id last_msg.tool_calls

/-- `ToolsManager.get_all_tools` (`src/core/tools_manager.py` lines 39-48):
start from a copy of the local tools; when MCP is enabled and a remote
manager exists, try to load its tools and extend the list, swallowing (and
printing) any exception.  `remote_mgr` is `none` when `self._remote_mgr is
None`, otherwise `some r` where `r` is the outcome of
`await self._remote_mgr.load_tools()`. -/
def get_all_tools (local_tools : List Tool) (enable_mcp : Bool)
    (remote_mgr : Option (Except String (List Tool))) : List Tool :=
  if enable_mcp then
    match remote_mgr with
    | some (Except.ok mcp_tools) => local_tools ++ mcp_tools
    | some (Except.error _) => local_tools
    | none => local_tools
  else local_tools

/-- The shapes the model call's return value can take, as `_call_model`
(`src/backend/manager.py` lines 156-177) distinguishes them: a direct
`BaseMessage`, a wrapper with a `.message` attribute, a wrapper with a
`.messages` attribute, a Python list of messages, or anything else. -/
inductive LLMResponse where
  | message (m : Msg)
  | withMessage (m : Msg)
  | withMessages (ms : List Msg)
  | listOf (ms : List Msg)
  | other
  deriving Repr

/-- The normalisation performed by `_call_model` on the model's response:
`strForm` models Python's `str(response)`, used by the fallback branch
(`msg = HumanMessage(content=str(response))`).  A wrapper with an empty
`.messages` list or an empty list also falls through to the fallback,
because the source guards those branches with truthiness checks. -/
def callModel (response : LLMResponse) (strForm : String) : Msg :=
  match response with
  | LLMResponse.message m => m
  | LLMResponse.withMessage m => m
  | LLMResponse.withMessages (m :: _) => m
  | LLMResponse.withMessages [] => { role := Role.human, content := strForm }
  | LLMResponse.listOf (m :: _) => m
  | LLMResponse.listOf [] => { role := Role.human, content := strForm }
  | LLMResponse.other => { role := Role.human, content := strForm }

/-- `_should_continue` (`src/backend/manager.py` lines 134-140), applied to
the state's last message: `"tools"` when its `tool_calls` list is truthy
(non-empty), otherwise langgraph's `END` sentinel, the string `"__end__"`. -/
def should_continue (last_msg : Msg) : String :=
  if last_msg.tool_calls.isEmpty then "__end__" else "tools"

/-- The state carried by the graph (`AgentState` in manager.py): the message
list (append-only via the reducer) and the thread id. -/
structure AgentState where
  messages : List Msg
  thread_id : String

/-- The compiled graph's execution (`_build_graph` wires entry point
`agent`, the conditional edge `agent → tools / END` through
`_should_continue`, and the unconditional edge `tools → agent`): invoke the
model, append its (normalised) message, stop if `_should_continue` says
`END`, otherwise run the tool node, append its messages, and loop.  `model`
is the opaque LLM capability (response plus its `str` form); `fuel` models
langgraph's recursion limit, exhausting it is the `GraphRecursionError`.
The returned `Nat` counts the executed `tools` (Acting) steps. -/
def runLoop (tools : List Tool) (retrievers : String → Option Retriever)
    (model : List Msg → LLMResponse × String) :
    Nat → AgentState → Except String (AgentState × Nat)
  | 0, _ => Except.error "GraphRecursionError"
  | fuel + 1, state =>
    let (response, strForm) := model state.messages
    let msg := callModel response strForm
    let state1 : AgentState := ⟨state.messages ++ [msg], state.thread_id⟩
    if should_continue msg = "__end__" then
      Except.ok (state1, 0)
    else
      match callTool tools retrievers state1.thread_id msg with
      | Except.error e => Except.error e
      | Except.ok outputs =>
        match runLoop tools retrievers model fuel
            ⟨state1.messages ++ outputs, state1.thread_id⟩ with
        | Except.error e => Except.error e
        | Except.ok (finalState, acts) => Except.ok (finalState, acts + 1)

/-- The unconditional graph edge `graph.add_edge("tools", "agent")` of
`_build_graph` (manager.py line 127): after the tool node the loop always
proceeds to the agent (Reasoning) node. -/
def edge_after_tools : String := "agent"

/-- One event of `graph.astream_events(...)`: its `event` kind and the
`.content` of `event["data"]["chunk"]` (empty for non-chunk events). -/
structure StreamEvent where
  kind : String
  content : String

/-- `json.dumps({"content": content})` followed by the SSE framing
`f"data: {data}\n\n"` of `ChatbotManager.stream` (manager.py lines 284-285);
JSON string escaping is modelled as the identity. -/
def sseFormat (content : String) : String :=
  "data: \x7b\"content\": \"" ++ content ++ "\"\x7d\n\n"

/-- The `async for` filter of `ChatbotManager.stream`
(`src/backend/manager.py` lines 278-285): yield an SSE-framed fragment for
every `on_chat_model_stream` event whose chunk content is truthy; every
other event yields nothing. -/
def stream_events : List StreamEvent → List String
  | [] => []
  | e :: rest =>
    if e.kind = "on_chat_model_stream" ∧ e.content ≠ "" then
      sseFormat e.content :: stream_events rest
    else
      stream_events rest

namespace MCPClient

/-- `MCPClient.run_tool` (`src/core/mcp_client.py` lines 52-60):
`client_initialized` is `self.client is not None`; `tool_ainvoke` is the
opaque `tool.ainvoke` capability.  Returns the error string when the client
is uninitialized, otherwise `str(result)` of the invocation, converting a
raised exception into an `"Error: ..."` string. -/
def run_tool (client_initialized : Bool)
    (tool_ainvoke : List (String × String) → Except String String)
    (args : List (String × String)) : Except String String :=
  if client_initialized then
    match tool_ainvoke args with
    | Except.ok result => Except.ok result
    | Except.error e => Except.ok ("Error: " ++ e)
  else
    Except.ok "Error: MCP client not initialized"

end MCPClient

namespace RemoteMCPTools

/-- The `run_tool` coroutine that `RemoteMCPTools._make_langchain_tool`
(`src/tools/mcp_tool.py` lines 41-54) wraps around each discovered MCP tool:
build `args` from the optional `query`, await `MCPClient.run_tool`, and
convert any exception into an `"Error: ..."` string. -/
def run_tool (client_initialized : Bool)
    (tool_ainvoke : List (String × String) → Except String String)
    (query : String) : Except String String :=
  let args : List (String × String) :=
    if query = "" then [] else [("query", query)]
  match MCPClient.run_tool client_initialized tool_ainvoke args with
  | Except.ok result => Except.ok result
  | Except.error e => Except.ok ("Error: " ++ e)

end RemoteMCPTools

/-- `context` list comprehension body of the RAG tool:
`doc.page_content` for one retrieved document. -/
def docContext (doc : Document) : PyVal := PyVal.str doc.page_content

/-- `metadata` list comprehension body of the RAG tool: `doc.metadata` for
one retrieved document, as a Python dict value. -/
def docMeta (doc : Document) : PyVal :=
  PyVal.dict (doc.metadata.map (fun kv => (kv.1, PyVal.str kv.2)))

namespace RAGTool

/-- `RAGTool._run` (`src/tools/local_tools.py` lines 70-81): invoke the
retriever on the query and return the dict with keys `query`, `context` and
`metadata`. -/
def _run (query : String) (retriever : Retriever) : PyVal :=
  let result := retriever query
  PyVal.dict
    [("query", PyVal.str query),
     ("context", PyVal.list (result.map docContext)),
     ("metadata", PyVal.list (result.map docMeta))]

/-- `RAGTool._arun` (`src/tools/local_tools.py` lines 83-95): the async
variant, computing the same dict from `await retriever.ainvoke(query)`. -/
def _arun (query : String) (retriever : Retriever) : PyVal :=
  let result := retriever query
  PyVal.dict
    [("query", PyVal.str query),
     ("context", PyVal.list (result.map docContext)),
     ("metadata", PyVal.list (result.map docMeta))]

end RAGTool

/-- The keys of a `PyVal` dict, in order (empty for non-dicts). -/
def pyvalKeys : PyVal → List String
  | PyVal.dict entries => entries.map (fun kv => kv.1)
  | _ => []

/-- Lookup of a key in a `PyVal` dict (first match; `none` for non-dicts). -/
def pyvalGet (v : PyVal) (k : String) : Option PyVal :=
  match v with
  | PyVal.dict entries => (entries.find? (fun kv => kv.1 == k)).map (fun kv => kv.2)
  | _ => none

/-! Concrete fixtures used by witnesses and counterexamples. -/

/-- A well-behaved tool named `echo` whose invocation always succeeds. -/
def echoTool : Tool :=
  { name := "echo",
    ainvoke := fun _ => Except.ok "done",
    arunRag := fun _ _ => Except.ok "ragout",
    ainvokeRag := fun _ _ => Except.ok "ragfallback" }

/-- A tool named `boom` whose `ainvoke` raises. -/
def boomTool : Tool :=
  { name := "boom",
    ainvoke := fun _ => Except.error "boom failed",
    arunRag := fun _ _ => Except.ok "",
    ainvokeRag := fun _ _ => Except.ok "" }

/-- A tool registered under the reserved name `rag_tool` whose direct
`_arun` call raises and whose `ainvoke` fallback succeeds. -/
def ragBoomTool : Tool :=
  { name := "rag_tool",
    ainvoke := fun _ => Except.ok "plain",
    arunRag := fun _ _ => Except.error "direct fail",
    ainvokeRag := fun _ _ => Except.ok "fallback ok" }

/-- A thread-to-retriever map with no entries (`self._thread_retrievers`
when no document was ever uploaded). -/
def noRetrievers : String → Option Retriever := fun _ => none

/-- A retriever returning no documents. -/
def emptyRetriever : Retriever := fun _ => []

/-- A thread-to-retriever map associating `emptyRetriever` to every thread. -/
def oneRetrievers : String → Option Retriever := fun _ => some emptyRetriever

/-- An assistant message requesting `echo` and then a non-existent tool. -/
def wMsg : Msg :=
  { role := Role.ai, content := "",
    tool_calls := [⟨"a1", "echo", []⟩, ⟨"a2", "ghost", []⟩] }

/-- An assistant message requesting only the raising tool `boom`. -/
def boomMsg : Msg :=
  { role := Role.ai, content := "", tool_calls := [⟨"b1", "boom", []⟩] }

/-- A request for the reserved RAG tool. -/
def ragTC : ToolCallRequest := ⟨"r1", "rag_tool", [("query", "hi")]⟩

/-! Helper lemmas. -/

/-- Any `Except.ok` outcome of `dispatchOne` is a `ToolMessage` carrying the
request's id and name. -/
theorem dispatchOne_ok_fields {tools : List Tool}
    {retrievers : String → Option Retriever} {thread_id : String}
    {tc : ToolCallRequest} {m : Msg}
    (h : dispatchOne tools retrievers thread_id tc = Except.ok m) :
    m.role = Role.tool ∧ m.tool_call_id = tc.id ∧ m.name = tc.name := by
  unfold dispatchOne at h
  repeat' split at h
  all_goals simp_all [toolMsg]
  all_goals subst h; exact ⟨rfl, rfl, rfl⟩

/-- `callToolGo` on an `Except.ok` run produces one tool message per
request, in order, carrying each request's id and name. -/
theorem callToolGo_ok_map {tools : List Tool}
    {retrievers : String → Option Retriever} {thread_id : String}
    {tcs : List ToolCallRequest} {msgs : List Msg}
    (h : callToolGo tools retrievers thread_id tcs = Except.ok msgs) :
    msgs.map (fun m => (m.role, m.tool_call_id, m.name))
      = tcs.map (fun tc => (Role.tool, tc.id, tc.name)) := by
  induction tcs generalizing msgs with
  | nil =>
    unfold callToolGo at h
    cases h
    rfl
  | cons tc rest ih =>
    unfold callToolGo at h
    cases hd : dispatchOne tools retrievers thread_id tc with
    | error e => rw [hd] at h; cases h
    | ok m =>
      rw [hd] at h
      cases hr : callToolGo tools retrievers thread_id rest with
      | error e => rw [hr] at h; cases h
      | ok ms =>
        rw [hr] at h
        cases h
        obtain ⟨h1, h2, h3⟩ := dispatchOne_ok_fields hd
        simp [h1, h2, h3, ih hr]

/-! Claim theorems. -/

/-- An assistant message whose first request (`echo`) would succeed and
whose second request names the raising tool `boom`. -/
def mixedMsg : Msg :=
  { role := Role.ai, content := "",
    tool_calls := [⟨"m1", "echo", []⟩, ⟨"m2", "boom", []⟩] }

/-- C1 counterexample: an `AssistantMessage` with a non-empty `tool_calls`
list (two requests) on which one pass of `_call_tool` produces zero
`ToolResultMessage`s, not one per request: the second tool's invocation
raises, nothing catches it (manager.py line 221), and the pass aborts with
the exception, discarding the already-built message of the first request. -/
theorem claim_C1_counterexample :
    callTool [echoTool, boomTool] noRetrievers "t1" mixedMsg
      = Except.error "boom failed" := rfl

/-- C1 (amended): whenever one pass of the tool-dispatch step `_call_tool`
completes without an uncaught tool exception (returns `Except.ok`, rather
than propagating an error), it produces exactly one `ToolMessage` per
`ToolCallRequest` of the last message, in the same order as the requests,
and each produced message carries the `tool_call_id` and `name` of the
request that originated it.  (A pass in which a tool invocation raises
uncaught returns `Except.error` instead and so produces no tool messages:
see the counterexample above.) -/
theorem claim_C1_dispatch_one_result_per_request
    (tools : List Tool) (retrievers : String → Option Retriever)
    (thread_id : String) (last_msg : Msg) (msgs : List Msg)
    (h : callTool tools retrievers thread_id last_msg = Except.ok msgs) :
    msgs.length = last_msg.tool_calls.length ∧
    msgs.map (fun m => (m.role, m.tool_call_id, m.name))
      = last_msg.tool_calls.map (fun tc => (Role.tool, tc.id, tc.name)) := by
  have hmap := callToolGo_ok_map h
  constructor
  · have := congrArg List.length hmap
    simpa using this
  · exact hmap

/-- C1 witness: on a concrete state whose last message requests `echo` and
then a missing tool, the dispatch pass yields two tool messages carrying the
requests' ids and names in order. -/
theorem claim_C1_witness :
    ([toolMsg "done" "a1" "echo",
      toolMsg ("Error: Tool '" ++ "ghost" ++ "' not found.") "a2" "ghost"].length
        = wMsg.tool_calls.length) ∧
    ([toolMsg "done" "a1" "echo",
      toolMsg ("Error: Tool '" ++ "ghost" ++ "' not found.") "a2" "ghost"].map
        (fun m => (m.role, m.tool_call_id, m.name))
      = wMsg.tool_calls.map (fun tc => (Role.tool, tc.id, tc.name))) :=
  claim_C1_dispatch_one_result_per_request [echoTool] noRetrievers "t1" wMsg
    [toolMsg "done" "a1" "echo",
     toolMsg ("Error: Tool '" ++ "ghost" ++ "' not found.") "a2" "ghost"] rfl

/-- C2 counterexample: at the concrete state whose last message requests the
tool `boom`, whose registered invocation raises, `_call_tool` propagates the
exception (it aborts with the error instead of producing a tool message
encoding it): nothing in the non-RAG branch catches the invocation's
exception. -/
theorem claim_C2_counterexample :
    callTool [boomTool] noRetrievers "t1" boomMsg = Except.error "boom failed" := rfl

/-- C2 (amended): only the reserved RAG path is defensive — when the direct
`_arun` call of `rag_tool` raises, the exception is caught and the
`ainvoke` fallback's successful output becomes the tool message; but an
exception raised by a non-RAG tool's invocation propagates out of the
dispatch step uncaught. -/
theorem claim_C2_tool_exception_handling :
    (∀ (tools : List Tool) (retrievers : String → Option Retriever)
       (thread_id : String) (tc : ToolCallRequest) (tool : Tool)
       (r : Retriever) (output e : String),
       tools.find? (fun t => t.name == tc.name) = some tool →
       tc.name = "rag_tool" →
       retrievers thread_id = some r →
       tool.arunRag (dictGet tc.args "query") r = Except.error e →
       tool.ainvokeRag tc.args r = Except.ok output →
       dispatchOne tools retrievers thread_id tc
         = Except.ok (toolMsg output tc.id tc.name)) ∧
    (∀ (tools : List Tool) (retrievers : String → Option Retriever)
       (thread_id : String) (tc : ToolCallRequest) (tool : Tool) (e : String),
       tc.name ≠ "rag_tool" →
       tools.find? (fun t => t.name == tc.name) = some tool →
       tool.ainvoke tc.args = Except.error e →
       dispatchOne tools retrievers thread_id tc = Except.error e) := by
  constructor
  · intro tools retrievers thread_id tc tool r output e hfind hname hret hdirect hfb
    unfold dispatchOne
    rw [hfind]
    simp [if_pos hname, hret, hdirect, hfb]
  · intro tools retrievers thread_id tc tool e hname hfind hinv
    unfold dispatchOne
    rw [hfind]
    simp [if_neg hname, hinv]

/-- C2 witness: for a `rag_tool` registration whose direct call raises, the
dispatch step returns the fallback invocation's output as the tool message. -/
theorem claim_C2_witness :
    dispatchOne [ragBoomTool] oneRetrievers "t1" ragTC
      = Except.ok (toolMsg "fallback ok" "r1" "rag_tool") :=
  claim_C2_tool_exception_handling.1 [ragBoomTool] oneRetrievers "t1" ragTC
    ragBoomTool emptyRetriever "fallback ok" "direct fail" rfl rfl rfl rfl rfl

/-- A local tool named `dup`, colliding with `remoteDup`. -/
def localDup : Tool :=
  { name := "dup",
    ainvoke := fun _ => Except.ok "local",
    arunRag := fun _ _ => Except.ok "",
    ainvokeRag := fun _ _ => Except.ok "" }

/-- A remotely discovered tool also named `dup`. -/
def remoteDup : Tool :=
  { name := "dup",
    ainvoke := fun _ => Except.ok "remote",
    arunRag := fun _ _ => Except.ok "",
    ainvokeRag := fun _ _ => Except.ok "" }

/-- C3 counterexample: registering a local tool and a remote tool that share
the name `dup`, the merged collection returned by `get_all_tools` contains
two tools of that name, not at most one — the source concatenates the lists
with no deduplication. -/
theorem claim_C3_counterexample :
    ¬ ((get_all_tools [localDup] true (some (Except.ok [remoteDup]))).countP
        (fun t => t.name == "dup") ≤ 1) := by
  decide

/-- C3 (amended): `get_all_tools` returns the local tools followed by the
remotely discovered tools with no deduplication, so on a name collision both
tools are present; but the local tools come first, so the first tool of any
name already carried by a local tool — the one the dispatch step's
`next(...)` lookup resolves — is the local one. -/
theorem claim_C3_merge_local_first
    (local_tools mcp_tools : List Tool) :
    (get_all_tools local_tools true (some (Except.ok mcp_tools))
       = local_tools ++ mcp_tools) ∧
    (∀ n : String,
       (local_tools.find? (fun t => t.name == n)).isSome = true →
       (get_all_tools local_tools true (some (Except.ok mcp_tools))).find?
           (fun t => t.name == n)
         = local_tools.find? (fun t => t.name == n)) := by
  refine ⟨rfl, ?_⟩
  intro n hsome
  show (local_tools ++ mcp_tools).find? (fun t => t.name == n)
      = local_tools.find? (fun t => t.name == n)
  rw [List.find?_append]
  obtain ⟨t, ht⟩ := Option.isSome_iff_exists.mp hsome
  rw [ht]
  rfl

/-- C3 witness: with the colliding pair `localDup`/`remoteDup`, the merged
list is their concatenation and the lookup of `dup` resolves to the local
tool. -/
theorem claim_C3_witness :
    (get_all_tools [localDup] true (some (Except.ok [remoteDup]))).find?
        (fun t => t.name == "dup")
      = [localDup].find? (fun t => t.name == "dup") :=
  (claim_C3_merge_local_first [localDup] [remoteDup]).2 "dup" rfl

/-- When the requested name matches no registered tool, `dispatchOne`
returns the not-found tool message. -/
theorem dispatchOne_not_found {tools : List Tool}
    {retrievers : String → Option Retriever} {thread_id : String}
    {tc : ToolCallRequest}
    (hnone : tools.find? (fun t => t.name == tc.name) = none) :
    dispatchOne tools retrievers thread_id tc
      = Except.ok (toolMsg ("Error: Tool '" ++ tc.name ++ "' not found.") tc.id tc.name) := by
  unfold dispatchOne
  rw [hnone]

/-- When every requested name is missing from the registry, the dispatch
loop returns the full list of not-found tool messages. -/
theorem callToolGo_all_not_found {tools : List Tool}
    {retrievers : String → Option Retriever} {thread_id : String}
    {tcs : List ToolCallRequest}
    (h : ∀ tc ∈ tcs, tools.find? (fun t => t.name == tc.name) = none) :
    callToolGo tools retrievers thread_id tcs
      = Except.ok (tcs.map (fun tc =>
          toolMsg ("Error: Tool '" ++ tc.name ++ "' not found.") tc.id tc.name)) := by
  induction tcs with
  | nil => rfl
  | cons tc rest ih =>
    have hnone := h tc (List.mem_cons_self tc rest)
    have hrest : ∀ tc ∈ rest, tools.find? (fun t => t.name == tc.name) = none :=
      fun tc htc => h tc (List.mem_cons_of_mem _ htc)
    unfold callToolGo
    rw [dispatchOne_not_found hnone, ih hrest]
    rfl

/-- C4: a request for a tool name with no exact (case-sensitive) match in
the registry never raises: `_call_tool` produces, for each such request, a
tool message whose content is the not-found indication, and the graph's
unconditional `tools → agent` edge then returns the loop to the Reasoning
node. -/
theorem claim_C4_unknown_tool_not_found
    (tools : List Tool) (retrievers : String → Option Retriever)
    (thread_id : String) (last_msg : Msg)
    (h : ∀ tc ∈ last_msg.tool_calls,
        tools.find? (fun t => t.name == tc.name) = none) :
    callTool tools retrievers thread_id last_msg
      = Except.ok (last_msg.tool_calls.map (fun tc =>
          toolMsg ("Error: Tool '" ++ tc.name ++ "' not found.") tc.id tc.name)) ∧
    edge_after_tools = "agent" :=
  ⟨callToolGo_all_not_found h, rfl⟩

/-- A message whose single tool call names an unregistered tool. -/
def ghostMsg : Msg :=
  { role := Role.ai, content := "", tool_calls := [⟨"g1", "ghost", []⟩] }

/-- C4 witness: dispatching a request for the unregistered name `ghost`
against a registry holding only `echo` yields the not-found tool message. -/
theorem claim_C4_witness :
    (callTool [echoTool] noRetrievers "t1" ghostMsg
      = Except.ok (ghostMsg.tool_calls.map (fun tc =>
          toolMsg ("Error: Tool '" ++ tc.name ++ "' not found.") tc.id tc.name))) ∧
    edge_after_tools = "agent" :=
  claim_C4_unknown_tool_not_found [echoTool] noRetrievers "t1" ghostMsg
    (by
      intro tc htc
      simp only [ghostMsg, List.mem_singleton] at htc
      subst htc
      rfl)

/-- C5: a request naming the reserved retrieval tool `rag_tool`, on a thread
whose id has no associated retriever, is answered with the structured
no-document result; the tool itself is not invoked — the conclusion holds
for every tool registered under that name, whatever its invocation
capabilities do, so no invocation behaviour can influence it. -/
theorem claim_C5_rag_without_retriever
    (tools : List Tool) (retrievers : String → Option Retriever)
    (thread_id : String) (tc : ToolCallRequest) (tool : Tool)
    (hname : tc.name = "rag_tool")
    (hfind : tools.find? (fun t => t.name == tc.name) = some tool)
    (hret : retrievers thread_id = none) :
    dispatchOne tools retrievers thread_id tc
      = Except.ok (toolMsg noDocumentContent tc.id tc.name) := by
  unfold dispatchOne
  rw [hfind]
  simp [if_pos hname, hret]

/-- C5 witness: the concrete `rag_tool` request on a thread with no
retriever yields the no-document tool message. -/
theorem claim_C5_witness :
    dispatchOne [ragBoomTool] noRetrievers "t1" ragTC
      = Except.ok (toolMsg noDocumentContent "r1" "rag_tool") :=
  claim_C5_rag_without_retriever [ragBoomTool] noRetrievers "t1" ragTC
    ragBoomTool rfl rfl rfl

/-- C6: `_should_continue` returns the terminal sentinel exactly when the
last message's `tool_calls` list is empty and the `tools` node otherwise;
consequently a turn whose first model response carries no tool calls ends
after exactly one Reasoning step, with the response appended and zero
Acting steps executed. -/
theorem claim_C6_terminal_decision :
    (∀ m : Msg, m.tool_calls = [] → should_continue m = "__end__") ∧
    (∀ m : Msg, m.tool_calls ≠ [] → should_continue m = "tools") ∧
    (∀ (tools : List Tool) (retrievers : String → Option Retriever)
       (model : List Msg → LLMResponse × String) (fuel : Nat)
       (state : AgentState) (response : LLMResponse) (strForm : String),
       model state.messages = (response, strForm) →
       (callModel response strForm).tool_calls = [] →
       runLoop tools retrievers model (fuel + 1) state
         = Except.ok
             (⟨state.messages ++ [callModel response strForm], state.thread_id⟩, 0)) := by
  refine ⟨?_, ?_, ?_⟩
  · intro m hm
    simp [should_continue, hm]
  · intro m hm
    simp [should_continue, List.isEmpty_iff, hm]
  · intro tools retrievers model fuel state response strForm hmodel hempty
    unfold runLoop
    rw [hmodel]
    simp [should_continue, hempty]

/-- A model response carrying no tool calls. -/
def plainMsg : Msg := { role := Role.ai, content := "hi" }

/-- A model capability that always answers `plainMsg` directly. -/
def constModel : List Msg → LLMResponse × String :=
  fun _ => (LLMResponse.message plainMsg, "")

/-- An initial state holding one user message. -/
def initState : AgentState :=
  ⟨[{ role := Role.human, content := "What is 2+2?" }], "t1"⟩

/-- C6 witness: with a model that answers without tool calls, the loop ends
after one Reasoning step, appending only that answer, with zero Acting
steps. -/
theorem claim_C6_witness :
    runLoop [] noRetrievers constModel (4 + 1) initState
      = Except.ok
          (⟨initState.messages ++ [callModel (LLMResponse.message plainMsg) ""],
            initState.thread_id⟩, 0) :=
  claim_C6_terminal_decision.2.2 [] noRetrievers constModel 4 initState
    (LLMResponse.message plainMsg) "" rfl rfl

/-- C7 counterexample: on an entirely unrecognized response shape,
`_call_model` wraps the string form as a `HumanMessage` — a user-role
message, not a plain assistant message as the claim states. -/
theorem claim_C7_counterexample :
    callModel LLMResponse.other "mystery"
        = { role := Role.human, content := "mystery" } ∧
    (callModel LLMResponse.other "mystery").role ≠ Role.ai :=
  ⟨rfl, by decide⟩

/-- C7 (amended): the Reasoning step normalizes every model return value to
exactly one message — a direct message is kept; a wrapper with a `.message`
field, a wrapper with a non-empty `.messages` field, and a non-empty list
are unwrapped to their (first) message; an empty `.messages` wrapper, an
empty list and every entirely unrecognized shape are wrapped as a plain
human (user) message carrying the value's string form, rather than failing
the turn. -/
theorem claim_C7_response_normalization :
    (∀ (m : Msg) (s : String), callModel (LLMResponse.message m) s = m) ∧
    (∀ (m : Msg) (s : String), callModel (LLMResponse.withMessage m) s = m) ∧
    (∀ (m : Msg) (ms : List Msg) (s : String),
       callModel (LLMResponse.withMessages (m :: ms)) s = m) ∧
    (∀ (m : Msg) (ms : List Msg) (s : String),
       callModel (LLMResponse.listOf (m :: ms)) s = m) ∧
    (∀ s : String, callModel (LLMResponse.withMessages []) s
        = { role := Role.human, content := s }) ∧
    (∀ s : String, callModel (LLMResponse.listOf []) s
        = { role := Role.human, content := s }) ∧
    (∀ s : String, callModel LLMResponse.other s
        = { role := Role.human, content := s }) :=
  ⟨fun _ _ => rfl, fun _ _ => rfl, fun _ _ _ => rfl, fun _ _ _ => rfl,
   fun _ => rfl, fun _ => rfl, fun _ => rfl⟩

/-- C8: the streaming operation emits exactly the SSE-framed fragments of
the `on_chat_model_stream` events with non-empty chunk content, in event
order (so fragments of successive Reasoning phases appear in emission
order); a stream of events none of which is a chat-model stream event — in
particular the events of tool-execution phases — yields no fragments. -/
theorem claim_C8_stream_only_model_text (events : List StreamEvent) :
    stream_events events
      = (events.filter (fun e =>
            decide (e.kind = "on_chat_model_stream" ∧ e.content ≠ ""))).map
          (fun e => sseFormat e.content) ∧
    ((∀ e ∈ events, e.kind ≠ "on_chat_model_stream") →
      stream_events events = []) := by
  constructor
  · induction events with
    | nil => rfl
    | cons e rest ih =>
      by_cases hp : e.kind = "on_chat_model_stream" ∧ e.content ≠ ""
      · simp [stream_events, List.filter, hp, ih]
      · simp [stream_events, List.filter, hp, ih]
  · intro h
    induction events with
    | nil => rfl
    | cons e rest ih =>
      have he := h e (List.mem_cons_self e rest)
      have hrest := fun e' he' => h e' (List.mem_cons_of_mem _ he')
      have hc : ¬ (e.kind = "on_chat_model_stream" ∧ e.content ≠ "") :=
        fun hc => he hc.1
      simp [stream_events, hc, ih hrest]

/-- C8 witness: a tool-phase event stream yields no fragments, while a
mixed stream keeps exactly the chat-model fragments. -/
theorem claim_C8_witness :
    stream_events [⟨"on_tool_start", "x"⟩] = [] :=
  (claim_C8_stream_only_model_text [⟨"on_tool_start", "x"⟩]).2
    (by
      intro e he
      simp only [List.mem_singleton] at he
      subst he
      decide)

/-- C9: the remote-tool invocation wrappers never raise: for every client
state, tool capability and argument mapping, `MCPClient.run_tool` returns a
string (never propagates an exception), returning the fixed error string
when the underlying client is uninitialized and an `"Error: ..."` string
when the invocation raises; and the coroutine `RemoteMCPTools.run_tool`
wrapped around each discovered MCP tool likewise always returns a string. -/
theorem claim_C9_mcp_wrappers_never_raise :
    (∀ (client_initialized : Bool)
       (tool_ainvoke : List (String × String) → Except String String)
       (args : List (String × String)),
       ∃ s : String,
         MCPClient.run_tool client_initialized tool_ainvoke args = Except.ok s) ∧
    (∀ (client_initialized : Bool)
       (tool_ainvoke : List (String × String) → Except String String)
       (query : String),
       ∃ s : String,
         RemoteMCPTools.run_tool client_initialized tool_ainvoke query
           = Except.ok s) ∧
    (∀ (tool_ainvoke : List (String × String) → Except String String)
       (args : List (String × String)),
       MCPClient.run_tool false tool_ainvoke args
         = Except.ok "Error: MCP client not initialized") ∧
    (∀ (tool_ainvoke : List (String × String) → Except String String)
       (args : List (String × String)) (e : String),
       tool_ainvoke args = Except.error e →
       MCPClient.run_tool true tool_ainvoke args
         = Except.ok ("Error: " ++ e)) := by
  have hok : ∀ (b : Bool) (f : List (String × String) → Except String String)
      (args : List (String × String)),
      ∃ s : String, MCPClient.run_tool b f args = Except.ok s := by
    intro b f args
    unfold MCPClient.run_tool
    cases b with
    | false => exact ⟨"Error: MCP client not initialized", rfl⟩
    | true =>
      cases hf : f args with
      | ok result => exact ⟨result, by simp [hf]⟩
      | error e => exact ⟨"Error: " ++ e, by simp [hf]⟩
  refine ⟨hok, ?_, fun _ _ => rfl, ?_⟩
  · intro b f query
    unfold RemoteMCPTools.run_tool
    obtain ⟨s, hs⟩ := hok b f (if query = "" then [] else [("query", query)])
    exact ⟨s, by simp only []; rw [hs]⟩
  · intro f args e hf
    unfold MCPClient.run_tool
    simp [hf]

/-- C9 witness: a tool capability that raises is converted into an
`"Error: ..."` string by `MCPClient.run_tool`. -/
theorem claim_C9_witness :
    MCPClient.run_tool true (fun _ => Except.error "kaput") []
      = Except.ok ("Error: " ++ "kaput") :=
  claim_C9_mcp_wrappers_never_raise.2.2.2 (fun _ => Except.error "kaput") []
    "kaput" rfl

/-- C10: for every query and retriever, both `RAGTool._run` and
`RAGTool._arun` return the same dict, whose keys are exactly `query`,
`context` and `metadata` in that order; its `query` entry is the input
query unchanged, and its `context` and `metadata` entries are lists of
equal length containing, in retrieval order, one entry per retrieved
document (the document's page content, respectively its metadata). -/
theorem claim_C10_rag_result_shape (query : String) (retriever : Retriever) :
    RAGTool._run query retriever = RAGTool._arun query retriever ∧
    pyvalKeys (RAGTool._arun query retriever) = ["query", "context", "metadata"] ∧
    pyvalGet (RAGTool._arun query retriever) "query" = some (PyVal.str query) ∧
    pyvalGet (RAGTool._arun query retriever) "context"
      = some (PyVal.list ((retriever query).map docContext)) ∧
    pyvalGet (RAGTool._arun query retriever) "metadata"
      = some (PyVal.list ((retriever query).map docMeta)) ∧
    ((retriever query).map docContext).length = (retriever query).length ∧
    ((retriever query).map docMeta).length = (retriever query).length :=
  ⟨rfl, rfl, rfl, rfl, rfl, List.length_map _ _, List.length_map _ _⟩

end Chatbot

